import Mathlib

/-!
Shallow embedding of `AirGradient_Grafana.ino`.

The sketch reads sensor values each cycle, renders them on an SSD1306
display, accumulates them into an InfluxDB `Point` and writes the point
over WiFi.  `double` arithmetic in the sketch is embedded as exact
rational arithmetic over `ℚ`; C `int` values are embedded as `ℤ`; the
cast of a `double` expression to `int` (the return type of
`PM_TO_AQI_US`) is truncation towards zero.  External driver calls (the
sensor reads, the WiFi join, the InfluxDB connection check and write)
are oracles supplied as arguments, and the observable actions of a run
(display commands, delays, serial logging, the InfluxDB write, the
device restart, the permanent halt) are recorded in an event trace.
-/

/-- A field value of the InfluxDB point: the sketch adds `int` fields
(`pm2`, `aqi`, `co2`, `tvoc`) and `float` fields (`temp`, `rhum`). -/
inductive FieldValue where
  | ival (i : ℤ)
  | fval (q : ℚ)
deriving DecidableEq, Repr

/-- The InfluxDB `Point`: a measurement name and the fields added since
the last `clearFields()`.  The client appends each `addField` call, so
the fields are kept as a list in call order. -/
structure Point where
  name : String
  fields : List (String × FieldValue)
deriving DecidableEq, Repr

/-- The global `Point influxPoint("airgradient")` (src line 50). -/
def influxPoint : Point := ⟨"airgradient", []⟩

/-- `influxPoint.clearFields()`: drops all fields, keeps the measurement
name (src line 122). -/
def Point.clearFields (p : Point) : Point := { p with fields := [] }

/-- `influxPoint.addField(name, value)`: appends one named field for the
current cycle (src lines 128, 129, 144, 152, 153, 166). -/
def Point.addField (p : Point) (n : String) (v : FieldValue) : Point :=
  { p with fields := p.fields ++ [(n, v)] }

/-- A sequence of `addField` calls folded over a point. -/
def Point.applyAdds (p : Point) (l : List (String × FieldValue)) : Point :=
  l.foldl (fun q nv => q.addField nv.1 nv.2) p

/-- Rendering of a field value in the line protocol: integer fields get
the `i` suffix, float fields are printed as decimals (embedded here as
the exact rational). -/
def FieldValue.text : FieldValue → String
  | .ival i => toString i ++ "i"
  | .fval q => toString q

/-- `influxPoint.toLineProtocol()` (src line 175): the measurement name
followed by the `name=value` pairs of the current fields. -/
def Point.toLineProtocol (p : Point) : String :=
  p.name ++ " " ++ String.intercalate "," (p.fields.map fun nv => nv.1 ++ "=" ++ nv.2.text)

/-- Truncation of a rational towards zero: the semantics of the C cast
of a `double` expression to `int`. -/
def truncQ (q : ℚ) : ℤ := if q < 0 then ⌈q⌉ else ⌊q⌋

/-- The body of `PM_TO_AQI_US` (src lines 215-223) over exact rationals:
the seven-band piecewise-linear interpolation the sketch computes in
`double` arithmetic, each band guarded by an inclusive upper bound, the
result truncated to `int`. -/
def PM_TO_AQI_US_core (pm02 : ℚ) : ℤ :=
  if pm02 ≤ 12.0 then truncQ ((50 - 0) / (12.0 - 0) * (pm02 - 0) + 0)
  else if pm02 ≤ 35.4 then truncQ ((100 - 50) / (35.4 - 12.0) * (pm02 - 12.0) + 50)
  else if pm02 ≤ 55.4 then truncQ ((150 - 100) / (55.4 - 35.4) * (pm02 - 35.4) + 100)
  else if pm02 ≤ 150.4 then truncQ ((200 - 150) / (150.4 - 55.4) * (pm02 - 55.4) + 150)
  else if pm02 ≤ 250.4 then truncQ ((300 - 200) / (250.4 - 150.4) * (pm02 - 150.4) + 200)
  else if pm02 ≤ 350.4 then truncQ ((400 - 300) / (350.4 - 250.4) * (pm02 - 250.4) + 300)
  else if pm02 ≤ 500.4 then truncQ ((500 - 400) / (500.4 - 350.4) * (pm02 - 350.4) + 400)
  else 500

/-- `int PM_TO_AQI_US(int pm02)` (src lines 215-223): the declared
parameter type is `int`, promoted to `double` inside the body. -/
def PM_TO_AQI_US (pm02 : ℤ) : ℤ := PM_TO_AQI_US_core (pm02 : ℚ)

/-- Two-digit zero-padded decimal, the fractional part of `dtostrf`
output. -/
def pad2 (n : ℤ) : String := if n < 10 then "0" ++ toString n else toString n

/-- The Arduino `String(float)` conversion used by the sketch when it
displays temperature, humidity and CO2-free float values (src lines 156,
158): the Arduino core formats a `float` with two decimal places via
`dtostrf`, rounding to the nearest hundredth.  Embedded over `ℚ`. -/
def formatFloat2 (q : ℚ) : String :=
  if q < 0 then "-" ++ toString (⌊-q * 100 + 1 / 2⌋ / 100) ++ "." ++ pad2 (⌊-q * 100 + 1 / 2⌋ % 100)
  else toString (⌊q * 100 + 1 / 2⌋ / 100) ++ "." ++ pad2 (⌊q * 100 + 1 / 2⌋ % 100)

/-- One observable action of the sketch: a display render (one
`showTextRectangle` call: clear, set font, draw both lines, flush), a
blocking `delay(ms)`, `display.displayOff()`, a serial log line, one
`writePoint` call with the submitted measurement and fields,
`ESP.restart()`, or the permanent `while(true) {}` halt. -/
inductive Event where
  | render (ln1 ln2 : String) (small : Bool)
  | delayMs (ms : ℕ)
  | displayOff
  | logMsg (s : String)
  | write (measurement : String) (fields : List (String × FieldValue))
  | restart
  | halt
deriving DecidableEq, Repr

/-- `showTextRectangle(ln1, ln2, small)` (src lines 186-197): clears the
display, picks the 16pt font when `small` and the 24pt font otherwise,
draws both lines and flushes; modelled as one render event carrying the
two lines and the font flag. -/
def showTextRectangle (ln1 ln2 : String) (small : Bool) : List Event :=
  [Event.render ln1 ln2 small]

/-- The configuration globals of the sketch (src lines 52-64), set once
at startup and immutable afterwards. -/
structure Config where
  hasPM : Bool
  hasCO2 : Bool
  hasSHT : Bool
  hasTVOC : Bool
  inUSaqi : Bool
  inF : Bool
  tempOffsetC : ℚ
  connectWIFI : Bool
  displayData : Bool
deriving DecidableEq, Repr

/-- The raw driver readings of one cycle: `ag.getPM2_Raw()`,
`ag.getCO2_Raw()`, `ag.periodicFetchData()` (fields `t` and `rh`) and
`SGP.getTVOC()`.  Supplied as oracles for the four blocking driver
calls. -/
structure Readings where
  pm2 : ℤ
  co2 : ℤ
  t : ℚ
  rh : ℚ
  tvoc : ℤ
deriving DecidableEq, Repr

/-- The outcome of the `influxDbClient.writePoint` call of one cycle:
whether it succeeded, and the `getLastErrorMessage()` text logged on
failure. -/
structure UploadOracle where
  ok : Bool
  errMsg : String
deriving DecidableEq, Repr

/-- The `if (hasPM) { ... }` block of `loop` (src lines 126-139): reads
PM2.5, adds the `pm2` and `aqi` fields, renders either the AQI or the
raw value, then delays 3 s.  Returns the `addField` calls of the block
and its events. -/
def pmBlock (cfg : Config) (rd : Readings) : List (String × FieldValue) × List Event :=
  if cfg.hasPM then
    ([("pm2", FieldValue.ival rd.pm2), ("aqi", FieldValue.ival (PM_TO_AQI_US rd.pm2))],
      (if cfg.inUSaqi then showTextRectangle "AQI" (toString (PM_TO_AQI_US rd.pm2)) false
       else showTextRectangle "PM2" (toString rd.pm2) false) ++ [Event.delayMs 3000])
  else ([], [])

/-- The `if (hasCO2) { ... }` block of `loop` (src lines 141-147): reads
CO2, adds the `co2` field only when the reading is positive (negative
readings are driver error codes), but always renders the raw value,
then delays 3 s. -/
def co2Block (cfg : Config) (rd : Readings) : List (String × FieldValue) × List Event :=
  if cfg.hasCO2 then
    ((if rd.co2 > 0 then [("co2", FieldValue.ival rd.co2)] else []),
      showTextRectangle "CO2" (toString rd.co2) false ++ [Event.delayMs 3000])
  else ([], [])

/-- The `if (hasSHT) { ... }` block of `loop` (src lines 149-162):
fetches temperature/humidity, applies `tempOffsetC`, adds the `temp`
and `rhum` fields, renders the temperature (converted to Fahrenheit for
display when `inF`) and the humidity, then delays 3 s. -/
def shtBlock (cfg : Config) (rd : Readings) : List (String × FieldValue) × List Event :=
  if cfg.hasSHT then
    ([("temp", FieldValue.fval (rd.t + cfg.tempOffsetC)), ("rhum", FieldValue.fval rd.rh)],
      (if cfg.inF then
        showTextRectangle (formatFloat2 ((rd.t + cfg.tempOffsetC) * 9 / 5 + 32))
          (formatFloat2 rd.rh ++ "%") false
       else
        showTextRectangle (formatFloat2 (rd.t + cfg.tempOffsetC))
          (formatFloat2 rd.rh ++ "%") false) ++ [Event.delayMs 3000])
  else ([], [])

/-- The `if (hasTVOC) { ... }` block of `loop` (src lines 164-169):
reads the TVOC index, adds the `tvoc` field, renders it, then delays
3 s. -/
def tvocBlock (cfg : Config) (rd : Readings) : List (String × FieldValue) × List Event :=
  if cfg.hasTVOC then
    ([("tvoc", FieldValue.ival rd.tvoc)],
      showTextRectangle "TVOC" (toString rd.tvoc) false ++ [Event.delayMs 3000])
  else ([], [])

/-- All `addField` calls of one cycle, in source order. -/
def cycleFields (cfg : Config) (rd : Readings) : List (String × FieldValue) :=
  (pmBlock cfg rd).1 ++ (co2Block cfg rd).1 ++ (shtBlock cfg rd).1 ++ (tvocBlock cfg rd).1

/-- The payload section of `loop` (src lines 171-182): when WiFi is
configured, logs the line protocol, calls `writePoint` once, logs the
error message if the write failed, and sleeps 48 s.  When WiFi is not
configured nothing happens and the cycle ends immediately. -/
def reportEvents (cfg : Config) (u : UploadOracle) (p : Point) : List Event :=
  if cfg.connectWIFI then
    [Event.logMsg ("Writing: " ++ p.toLineProtocol), Event.write p.name p.fields]
      ++ (if u.ok then [] else [Event.logMsg ("InfluxDB write failed: " ++ u.errMsg)])
      ++ [Event.delayMs 48000]
  else []

/-- One invocation of `loop()` (src lines 116-183), which the Arduino
runtime calls forever: powers the display off when `displayData` is
false, clears the point's fields, runs the four sensor blocks in fixed
order (the `SGP.measure(false)` trigger on src line 124 only starts the
TVOC driver's measurement and has no observable effect in the model),
then runs the payload section.  Returns the point after the cycle and
the cycle's event trace. -/
def loop (cfg : Config) (rd : Readings) (u : UploadOracle) (p : Point) : Point × List Event :=
  let evD := if cfg.displayData then [] else [Event.displayOff]
  let p1 := (p.clearFields).applyAdds (cycleFields cfg rd)
  (p1,
    evD ++ (pmBlock cfg rd).2 ++ (co2Block cfg rd).2 ++ (shtBlock cfg rd).2
      ++ (tvocBlock cfg rd).2 ++ reportEvents cfg u p1)

/-- How `setup()` ends: falls through into the main `loop`, reboots the
device (`ESP.restart()` after the WiFi timeout), or hangs forever in
`while(true) {}` after a failed InfluxDB connection check. -/
inductive SetupResult where
  | proceed
  | restartTriggered
  | halted
deriving DecidableEq, Repr

/-- `connectToWifi()` (src lines 200-212): runs `autoConnect` with a
120 s timeout (the join outcome is the oracle `wifiOk`); on failure it
logs, waits 3 s, and calls `ESP.restart()`, which reboots the device —
nothing after it executes.  Returns the events and whether the join
succeeded. -/
def connectToWifi (wifiOk : Bool) : List Event × Bool :=
  if wifiOk then ([], true)
  else ([Event.logMsg "failed to connect and hit timeout", Event.delayMs 3000, Event.restart],
    false)

/-- `setup()` (src lines 73-114): initialises the display, renders the
startup banner (chip id in hex, small font), initialises the sensor
drivers (driver init and its serial logging have no observable effect in
the model), joins WiFi when `connectWIFI` is set (a failed join restarts
the device and nothing later runs), waits 2 s, syncs time, then
validates the InfluxDB connection (oracle `validateOk`): on success it
logs and falls through to `loop`, on failure it logs and hangs in
`while(true) {}` forever. -/
def setup (cfg : Config) (chipIdHex : String) (wifiOk validateOk : Bool) :
    List Event × SetupResult :=
  let ev0 := showTextRectangle "Init" chipIdHex true
  if cfg.connectWIFI && !(connectToWifi wifiOk).2 then
    (ev0 ++ (connectToWifi wifiOk).1, SetupResult.restartTriggered)
  else
    let ev1 := ev0 ++ (if cfg.connectWIFI then (connectToWifi wifiOk).1 else [])
      ++ [Event.delayMs 2000]
    if validateOk then
      (ev1 ++ [Event.logMsg "Connected to InfluxDB"], SetupResult.proceed)
    else
      (ev1 ++ [Event.logMsg "InfluxDB connection failed", Event.halt], SetupResult.halted)

/-- Runs a list of cycles of `loop`, threading the point through and
concatenating the traces. -/
def runCycles (cfg : Config) : List (Readings × UploadOracle) → Point → List Event
  | [], _ => []
  | (rd, u) :: rest, p => (loop cfg rd u p).2 ++ runCycles cfg rest (loop cfg rd u p).1

/-- A whole device run: `setup()` once, then — only when setup fell
through — the given cycles of `loop`.  After `ESP.restart()` or the
permanent halt no cycle ever runs. -/
def runDevice (cfg : Config) (chipIdHex : String) (wifiOk validateOk : Bool)
    (cycles : List (Readings × UploadOracle)) (p : Point) : List Event :=
  match (setup cfg chipIdHex wifiOk validateOk).2 with
  | SetupResult.proceed => (setup cfg chipIdHex wifiOk validateOk).1 ++ runCycles cfg cycles p
  | _ => (setup cfg chipIdHex wifiOk validateOk).1

/-- The SSD1306 display as seen by an operator: whether the panel is
powered, and the frame last flushed to it. -/
structure DispState where
  powered : Bool
  shown : Option (String × String × Bool)
deriving DecidableEq, Repr

/-- Effect of one event on the display: `displayOff` powers the panel
off, a render flushes a new frame (into display RAM, shown only while
the panel is powered); nothing in the sketch powers the panel back
on. -/
def applyEvent (d : DispState) : Event → DispState
  | Event.displayOff => { d with powered := false }
  | Event.render a b s => { d with shown := some (a, b, s) }
  | _ => d

/-- Folds a trace over the display. -/
def runEvents (d : DispState) (evs : List Event) : DispState := evs.foldl applyEvent d

/-- What an operator sees: the flushed frame while the panel is powered,
nothing once it is off. -/
def visible (d : DispState) : Option (String × String × Bool) :=
  if d.powered then d.shown else none

/-- The render events of a trace, as (line1, line2, small) triples. -/
def rendersOf (evs : List Event) : List (String × String × Bool) :=
  evs.filterMap fun e =>
    match e with
    | Event.render a b s => some (a, b, s)
    | _ => none

/-- Recognises the `writePoint` event. -/
def isWriteEv : Event → Bool
  | Event.write _ _ => true
  | _ => false

/-- Recognises the `ESP.restart()` event. -/
def isRestartEv : Event → Bool
  | Event.restart => true
  | _ => false

/-- Recognises a serial log event. -/
def isLogEv : Event → Bool
  | Event.logMsg _ => true
  | _ => false

theorem Point.applyAdds_fields (l : List (String × FieldValue)) (p : Point) :
    (p.applyAdds l).fields = p.fields ++ l := by
  induction l generalizing p with
  | nil => simp [Point.applyAdds]
  | cons nv rest ih =>
    simp [Point.applyAdds, Point.addField] at ih ⊢
    rw [ih]
    simp

theorem Point.applyAdds_name (l : List (String × FieldValue)) (p : Point) :
    (p.applyAdds l).name = p.name := by
  induction l generalizing p with
  | nil => rfl
  | cons nv rest ih =>
    simp only [Point.applyAdds, List.foldl_cons] at ih ⊢
    rw [ih]
    rfl

theorem loop_point (cfg : Config) (rd : Readings) (u : UploadOracle) (p : Point) :
    (loop cfg rd u p).1 = ⟨p.name, cycleFields cfg rd⟩ := by
  show (p.clearFields).applyAdds (cycleFields cfg rd) = _
  have h1 := Point.applyAdds_fields (cycleFields cfg rd) p.clearFields
  have h2 := Point.applyAdds_name (cycleFields cfg rd) p.clearFields
  cases hp : (p.clearFields).applyAdds (cycleFields cfg rd) with
  | mk n f =>
    rw [hp] at h1 h2
    simp [Point.clearFields] at h1 h2
    simp [h1, h2]

/-- C1: `PM_TO_AQI_US` implements the seven-band EPA piecewise-linear
interpolation with inclusive upper band boundaries and an
integer-truncating result: every integer pm02 in [0, 12.0) maps into
[0, 50); pm02 = 12.0 maps to 50; the band value at 35.4 is 100 and at
500.4 is 500; and everything above 500.4 is clamped to 500.  The band
values at the non-integer boundaries 35.4 and 500.4 are stated on the
function's body over exact rationals, since the declared `int` parameter
cannot carry them. -/
theorem C1_aqi_bands :
    (∀ pm : ℤ, 0 ≤ pm → pm < 12 → 0 ≤ PM_TO_AQI_US pm ∧ PM_TO_AQI_US pm < 50) ∧
    PM_TO_AQI_US 12 = 50 ∧
    PM_TO_AQI_US_core 35.4 = 100 ∧
    PM_TO_AQI_US_core 500.4 = 500 ∧
    (∀ q : ℚ, 500.4 < q → PM_TO_AQI_US_core q = 500) := by
  refine ⟨?_, ?_, ?_, ?_, ?_⟩
  · intro pm h1 h2
    interval_cases pm <;> exact ⟨by norm_num [PM_TO_AQI_US, PM_TO_AQI_US_core, truncQ],
      by norm_num [PM_TO_AQI_US, PM_TO_AQI_US_core, truncQ]⟩
  · norm_num [PM_TO_AQI_US, PM_TO_AQI_US_core, truncQ]
  · norm_num [PM_TO_AQI_US_core, truncQ]
  · norm_num [PM_TO_AQI_US_core, truncQ]
  · intro q h
    rw [PM_TO_AQI_US_core, if_neg (by norm_num at h ⊢; linarith),
      if_neg (by norm_num at h ⊢; linarith), if_neg (by norm_num at h ⊢; linarith),
      if_neg (by norm_num at h ⊢; linarith), if_neg (by norm_num at h ⊢; linarith),
      if_neg (by norm_num at h ⊢; linarith), if_neg (by norm_num at h ⊢; linarith)]

theorem C1_aqi_bands_witness :
    (0 ≤ PM_TO_AQI_US 5 ∧ PM_TO_AQI_US 5 < 50) ∧ PM_TO_AQI_US_core 501 = 500 :=
  ⟨C1_aqi_bands.1 5 (by norm_num) (by norm_num),
    C1_aqi_bands.2.2.2.2 501 (by norm_num)⟩

theorem dot_mem_mid (a b : String) : '.' ∈ (a ++ "." ++ b).data := by
  rw [String.data_append, String.data_append]
  exact List.mem_append.2 (Or.inl (List.mem_append.2 (Or.inr (by decide))))

theorem formatFloat2_has_dot (q : ℚ) : '.' ∈ (formatFloat2 q).data := by
  unfold formatFloat2
  split
  · exact dot_mem_mid _ _
  · exact dot_mem_mid _ _

theorem formatFloat2_ne (q : ℚ) (s : String) (hs : '.' ∉ s.data) : formatFloat2 q ≠ s := by
  intro h
  exact hs (h ▸ formatFloat2_has_dot q)

theorem rendersOf_append (a b : List Event) :
    rendersOf (a ++ b) = rendersOf a ++ rendersOf b := by
  simp [rendersOf]

theorem co2Filter_pm (cfg : Config) (rd : Readings) :
    ((rendersOf (pmBlock cfg rd).2).filter fun r => r.1 == "CO2") = [] := by
  unfold pmBlock
  split
  · split <;> simp [rendersOf, showTextRectangle]
  · simp [rendersOf]

theorem co2Filter_sht (cfg : Config) (rd : Readings) :
    ((rendersOf (shtBlock cfg rd).2).filter fun r => r.1 == "CO2") = [] := by
  have hne : ∀ x : ℚ, (formatFloat2 x == "CO2") = false := fun x =>
    beq_eq_false_iff_ne.2 (formatFloat2_ne x _ (by decide))
  unfold shtBlock
  split
  · split <;> simp [rendersOf, showTextRectangle, hne]
  · simp [rendersOf]

theorem co2Filter_tvoc (cfg : Config) (rd : Readings) :
    ((rendersOf (tvocBlock cfg rd).2).filter fun r => r.1 == "CO2") = [] := by
  unfold tvocBlock
  split
  · simp [rendersOf, showTextRectangle]
  · simp [rendersOf]

theorem rendersOf_report (cfg : Config) (u : UploadOracle) (p : Point) :
    rendersOf (reportEvents cfg u p) = [] := by
  unfold reportEvents
  split
  · split <;> simp [rendersOf]
  · simp [rendersOf]

/-- C2: in every cycle where the CO2 capability is active, a raw reading
of at most 0 leaves no `co2` field in the accumulated point, yet exactly
one render of the cycle shows that raw value (line1 `CO2`, line2 the raw
value); a positive reading gets the `co2` field added. -/
theorem C2_co2_sentinel (cfg : Config) (rd : Readings) (u : UploadOracle) (p : Point)
    (hco2 : cfg.hasCO2 = true) :
    (rd.co2 ≤ 0 →
      "co2" ∉ (loop cfg rd u p).1.fields.map Prod.fst ∧
      ((rendersOf (loop cfg rd u p).2).filter fun r => r.1 == "CO2")
        = [("CO2", toString rd.co2, false)]) ∧
    (0 < rd.co2 →
      ("co2", FieldValue.ival rd.co2) ∈ (loop cfg rd u p).1.fields) := by
  refine ⟨fun hle => ⟨?_, ?_⟩, fun hpos => ?_⟩
  · obtain ⟨hPM, hCO2, hSHT, hTVOC, hAQI, hF, off, hW, hD⟩ := cfg
    simp only [Config.hasCO2] at hco2
    subst hco2
    cases hPM <;> cases hSHT <;> cases hTVOC <;>
      simp [loop_point, cycleFields, pmBlock, co2Block, shtBlock, tvocBlock,
        show ¬ (0 < rd.co2) from by omega]
  · have hloop : (loop cfg rd u p).2
        = (if cfg.displayData then [] else [Event.displayOff]) ++ (pmBlock cfg rd).2
          ++ (co2Block cfg rd).2 ++ (shtBlock cfg rd).2 ++ (tvocBlock cfg rd).2
          ++ reportEvents cfg u ((p.clearFields).applyAdds (cycleFields cfg rd)) := rfl
    rw [hloop, rendersOf_append, rendersOf_append, rendersOf_append, rendersOf_append,
      rendersOf_append, List.filter_append, List.filter_append, List.filter_append,
      List.filter_append, List.filter_append, co2Filter_pm, co2Filter_sht, co2Filter_tvoc,
      rendersOf_report]
    have hd : ((rendersOf (if cfg.displayData then [] else [Event.displayOff])).filter
        fun r => r.1 == "CO2") = [] := by
      split <;> simp [rendersOf]
    rw [hd]
    unfold co2Block
    rw [if_pos hco2]
    simp [rendersOf, showTextRectangle]
  · obtain ⟨hPM, hCO2, hSHT, hTVOC, hAQI, hF, off, hW, hD⟩ := cfg
    simp only [Config.hasCO2] at hco2
    subst hco2
    cases hPM <;> cases hSHT <;> cases hTVOC <;>
      simp [loop_point, cycleFields, pmBlock, co2Block, shtBlock, tvocBlock, hpos]

theorem C2_co2_sentinel_witness :
    ("co2" ∉ (loop ⟨true, true, true, true, false, true, 0, true, false⟩
        ⟨40, -1, 20, 50, 7⟩ ⟨true, ""⟩ influxPoint).1.fields.map Prod.fst ∧
      ((rendersOf (loop ⟨true, true, true, true, false, true, 0, true, false⟩
        ⟨40, -1, 20, 50, 7⟩ ⟨true, ""⟩ influxPoint).2).filter fun r => r.1 == "CO2")
        = [("CO2", toString (-1 : ℤ), false)]) :=
  (C2_co2_sentinel ⟨true, true, true, true, false, true, 0, true, false⟩
    ⟨40, -1, 20, 50, 7⟩ ⟨true, ""⟩ influxPoint rfl).1 (by norm_num)

/-- C3: the report record is strictly cycle-scoped: `clearFields`
(beginCycle) followed by any `addField` calls and another `clearFields`
yields a record whose fields are exactly the ones added after the second
clear, and the point produced by a `loop` cycle holds exactly that
cycle's fields, independent of whatever the point held before. -/
theorem C3_cycle_scoped :
    (∀ (p : Point) (l1 l2 : List (String × FieldValue)),
      ((((p.clearFields).applyAdds l1).clearFields).applyAdds l2).fields = l2 ∧
      ((((p.clearFields).applyAdds l1).clearFields).applyAdds l2).name = p.name) ∧
    (∀ (cfg : Config) (rd : Readings) (u : UploadOracle) (p : Point),
      (loop cfg rd u p).1.fields = cycleFields cfg rd) := by
  constructor
  · intro p l1 l2
    constructor
    · rw [Point.applyAdds_fields]
      simp [Point.clearFields]
    · rw [Point.applyAdds_name]
      simp [Point.clearFields, Point.applyAdds_name]
  · intro cfg rd u p
    rw [loop_point]

/-- C4 counterexample: the claim puts `massConcentrationToAQI(40)` at
104, but the sketch's third band gives
(150-100)/(55.4-35.4)*(40-35.4)+100 = 111.5, truncated to 111. -/
theorem C4_scenario_counterexample :
    PM_TO_AQI_US 40 = 111 ∧ PM_TO_AQI_US 40 ≠ 104 := by
  constructor <;> norm_num [PM_TO_AQI_US, PM_TO_AQI_US_core, truncQ]

/-- C4 (amended): in the end-to-end scenario with ParticulateMatter and
TemperatureHumidity active, pm02 = 40, tempOffsetC = 0,
temperatureC = 20 and Fahrenheit display enabled:
`massConcentrationToAQI(40)` is 111 (not 104), the temperature render's
line1 is the Fahrenheit value 68 as formatted by the Arduino
`String(float)` conversion, i.e. `68.00` (not `68`), and the cycle's
record fields are exactly pm2 = 40, aqi = 111, temp = 20 and rhum = the
humidity reading. -/
theorem C4_scenario_amended (rh : ℚ) (co2v tvocv : ℤ) (u : UploadOracle) (p : Point) :
    PM_TO_AQI_US 40 = 111 ∧
    (loop ⟨true, false, true, false, false, true, 0, true, true⟩
        ⟨40, co2v, 20, rh, tvocv⟩ u p).1.fields
      = [("pm2", FieldValue.ival 40), ("aqi", FieldValue.ival 111),
         ("temp", FieldValue.fval 20), ("rhum", FieldValue.fval rh)] ∧
    rendersOf (loop ⟨true, false, true, false, false, true, 0, true, true⟩
        ⟨40, co2v, 20, rh, tvocv⟩ u p).2
      = [("PM2", "40", false), ("68.00", formatFloat2 rh ++ "%", false)] := by
  have haqi : PM_TO_AQI_US 40 = 111 := by norm_num [PM_TO_AQI_US, PM_TO_AQI_US_core, truncQ]
  have h68 : ∀ x : ℚ, x = 68 → formatFloat2 x = "68.00" := by
    intro x hx
    rw [hx]
    unfold formatFloat2
    rw [if_neg (by norm_num)]
    have h1 : ⌊(68:ℚ) * 100 + 1 / 2⌋ = 6800 := by norm_num
    rw [h1]
    decide
  have h40 : toString (40:ℤ) = "40" := by decide
  refine ⟨haqi, ?_, ?_⟩
  · simp [loop_point, cycleFields, pmBlock, co2Block, shtBlock, tvocBlock, haqi]
  · simp [loop, rendersOf, pmBlock, co2Block, shtBlock, tvocBlock, reportEvents,
      showTextRectangle, h40]
    exact h68 _ (by norm_num)

/-- C5: when the startup WiFi join never succeeds within the timeout (in
a configuration with networking enabled), setup ends in the
restart-triggered state, the whole device run contains exactly one
restart event and zero `writePoint` events — the main cycle is never
entered, whatever cycles would have followed. -/
theorem C5_wifi_timeout_restarts (cfg : Config) (chip : String) (vOk : Bool)
    (cycles : List (Readings × UploadOracle)) (p : Point)
    (hw : cfg.connectWIFI = true) :
    (setup cfg chip false vOk).2 = SetupResult.restartTriggered ∧
    (runDevice cfg chip false vOk cycles p).countP isRestartEv = 1 ∧
    (runDevice cfg chip false vOk cycles p).countP isWriteEv = 0 := by
  refine ⟨?_, ?_, ?_⟩ <;>
    simp [runDevice, setup, connectToWifi, showTextRectangle, hw, isRestartEv, isWriteEv]

theorem C5_wifi_timeout_restarts_witness :
    (setup ⟨true, true, true, true, false, true, 0, true, false⟩ "a1b2c3" false true).2
        = SetupResult.restartTriggered ∧
    (runDevice ⟨true, true, true, true, false, true, 0, true, false⟩ "a1b2c3" false true
        [(⟨40, 600, 20, 50, 7⟩, ⟨true, ""⟩)] influxPoint).countP isRestartEv = 1 ∧
    (runDevice ⟨true, true, true, true, false, true, 0, true, false⟩ "a1b2c3" false true
        [(⟨40, 600, 20, 50, 7⟩, ⟨true, ""⟩)] influxPoint).countP isWriteEv = 0 :=
  C5_wifi_timeout_restarts ⟨true, true, true, true, false, true, 0, true, false⟩ "a1b2c3"
    true [(⟨40, 600, 20, 50, 7⟩, ⟨true, ""⟩)] influxPoint rfl

/-- C6: when the WiFi join succeeds but the one-time InfluxDB validation
fails, setup ends in the permanently halted state, the device run is the
setup trace alone (no cycle — hence no Sampling — ever runs) with no
restart event; and the restart outcome is reachable only from a
networking-enabled configuration whose join failed. -/
theorem C6_validation_failure_halts (cfg : Config) (chip : String)
    (cycles : List (Readings × UploadOracle)) (p : Point)
    (hw : cfg.connectWIFI = true) :
    ((setup cfg chip true false).2 = SetupResult.halted ∧
      runDevice cfg chip true false cycles p = (setup cfg chip true false).1 ∧
      (runDevice cfg chip true false cycles p).countP isRestartEv = 0 ∧
      Event.halt ∈ runDevice cfg chip true false cycles p) ∧
    (∀ (cfg' : Config) (chip' : String) (w v : Bool),
      (setup cfg' chip' w v).2 = SetupResult.restartTriggered →
      cfg'.connectWIFI = true ∧ w = false) := by
  constructor
  · refine ⟨?_, ?_, ?_, ?_⟩ <;>
      simp [runDevice, setup, connectToWifi, showTextRectangle, hw, isRestartEv]
  · intro cfg' chip' w v h
    by_cases hw' : cfg'.connectWIFI = true
    · cases w
      · exact ⟨hw', rfl⟩
      · cases v <;> simp [setup, connectToWifi, hw'] at h
    · simp at hw'
      cases w <;> cases v <;> simp [setup, connectToWifi, hw'] at h

theorem C6_validation_failure_halts_witness :
    (setup ⟨true, true, true, true, false, true, 0, true, false⟩ "a1b2c3" true false).2
        = SetupResult.halted ∧
    runDevice ⟨true, true, true, true, false, true, 0, true, false⟩ "a1b2c3" true false
        [(⟨40, 600, 20, 50, 7⟩, ⟨true, ""⟩)] influxPoint
      = (setup ⟨true, true, true, true, false, true, 0, true, false⟩ "a1b2c3" true false).1 :=
  ⟨((C6_validation_failure_halts ⟨true, true, true, true, false, true, 0, true, false⟩
      "a1b2c3" [(⟨40, 600, 20, 50, 7⟩, ⟨true, ""⟩)] influxPoint rfl).1).1,
    ((C6_validation_failure_halts ⟨true, true, true, true, false, true, 0, true, false⟩
      "a1b2c3" [(⟨40, 600, 20, 50, 7⟩, ⟨true, ""⟩)] influxPoint rfl).1).2.1⟩

theorem pm_no_misc (cfg : Config) (rd : Readings) :
    (pmBlock cfg rd).2.countP isWriteEv = 0 ∧ Event.restart ∉ (pmBlock cfg rd).2 ∧
    Event.halt ∉ (pmBlock cfg rd).2 ∧ Event.delayMs 48000 ∉ (pmBlock cfg rd).2 := by
  unfold pmBlock
  split
  · split <;> simp [showTextRectangle, isWriteEv]
  · simp

theorem co2_no_misc (cfg : Config) (rd : Readings) :
    (co2Block cfg rd).2.countP isWriteEv = 0 ∧ Event.restart ∉ (co2Block cfg rd).2 ∧
    Event.halt ∉ (co2Block cfg rd).2 ∧ Event.delayMs 48000 ∉ (co2Block cfg rd).2 := by
  unfold co2Block
  split
  · simp [showTextRectangle, isWriteEv]
  · simp

theorem sht_no_misc (cfg : Config) (rd : Readings) :
    (shtBlock cfg rd).2.countP isWriteEv = 0 ∧ Event.restart ∉ (shtBlock cfg rd).2 ∧
    Event.halt ∉ (shtBlock cfg rd).2 ∧ Event.delayMs 48000 ∉ (shtBlock cfg rd).2 := by
  unfold shtBlock
  split
  · split <;> simp [showTextRectangle, isWriteEv]
  · simp

theorem tvoc_no_misc (cfg : Config) (rd : Readings) :
    (tvocBlock cfg rd).2.countP isWriteEv = 0 ∧ Event.restart ∉ (tvocBlock cfg rd).2 ∧
    Event.halt ∉ (tvocBlock cfg rd).2 ∧ Event.delayMs 48000 ∉ (tvocBlock cfg rd).2 := by
  unfold tvocBlock
  split
  · simp [showTextRectangle, isWriteEv]
  · simp

theorem report_no_misc (cfg : Config) (u : UploadOracle) (p : Point) :
    (reportEvents cfg u p).countP isWriteEv = (if cfg.connectWIFI then 1 else 0) ∧
    Event.restart ∉ reportEvents cfg u p ∧ Event.halt ∉ reportEvents cfg u p := by
  unfold reportEvents
  split
  · split <;> simp [isWriteEv]
  · simp

/-- C7: when the per-cycle `writePoint` fails, the failure is only
logged: the cycle's point is the same as in the success case, exactly
one write is attempted, no restart or halt occurs, the trace with log
events removed is identical to the success case's, the cycle still ends
with the 48 s inter-cycle sleep, and the diagnostic message is
logged. -/
theorem C7_submit_failure_nonfatal (cfg : Config) (rd : Readings) (u : UploadOracle)
    (p : Point) (hw : cfg.connectWIFI = true) (hfail : u.ok = false) :
    (loop cfg rd u p).1 = (loop cfg rd ⟨true, u.errMsg⟩ p).1 ∧
    (loop cfg rd u p).2.countP isWriteEv = 1 ∧
    Event.restart ∉ (loop cfg rd u p).2 ∧
    Event.halt ∉ (loop cfg rd u p).2 ∧
    ((loop cfg rd u p).2.filter fun e => !(isLogEv e))
      = ((loop cfg rd ⟨true, u.errMsg⟩ p).2.filter fun e => !(isLogEv e)) ∧
    (loop cfg rd u p).2.getLast? = some (Event.delayMs 48000) ∧
    Event.logMsg ("InfluxDB write failed: " ++ u.errMsg) ∈ (loop cfg rd u p).2 := by
  obtain ⟨uok, uerr⟩ := u
  simp only at hfail
  subst hfail
  have hA := pm_no_misc cfg rd
  have hB := co2_no_misc cfg rd
  have hC := sht_no_misc cfg rd
  have hD := tvoc_no_misc cfg rd
  have hE := report_no_misc cfg ⟨false, uerr⟩ ((p.clearFields).applyAdds (cycleFields cfg rd))
  have hloop : ∀ v : UploadOracle, (loop cfg rd v p).2
      = (if cfg.displayData then [] else [Event.displayOff]) ++ (pmBlock cfg rd).2
        ++ (co2Block cfg rd).2 ++ (shtBlock cfg rd).2 ++ (tvocBlock cfg rd).2
        ++ reportEvents cfg v ((p.clearFields).applyAdds (cycleFields cfg rd)) :=
    fun v => rfl
  refine ⟨by simp [loop_point], ?_, ?_, ?_, ?_, ?_, ?_⟩
  · rw [hloop]
    simp [List.countP_append, hA.1, hB.1, hC.1, hD.1, hE.1, hw, isWriteEv]
  · rw [hloop]
    simp [hA.2.1, hB.2.1, hC.2.1, hD.2.1, hE.2.1]
  · rw [hloop]
    simp [hA.2.2.1, hB.2.2.1, hC.2.2.1, hD.2.2.1, hE.2.2]
  · rw [hloop, hloop]
    simp only [List.filter_append]
    simp [reportEvents, hw, isLogEv]
  · rw [hloop]
    simp [List.getLast?_append, reportEvents, hw]
  · rw [hloop]
    simp [reportEvents, hw]

theorem C7_submit_failure_nonfatal_witness :
    (loop ⟨true, true, true, true, false, true, 0, true, false⟩ ⟨40, 600, 20, 50, 7⟩
      ⟨false, "timeout"⟩ influxPoint).2.countP isWriteEv = 1 :=
  (C7_submit_failure_nonfatal ⟨true, true, true, true, false, true, 0, true, false⟩
    ⟨40, 600, 20, 50, 7⟩ ⟨false, "timeout"⟩ influxPoint rfl rfl).2.1

/-- C8 counterexample: the claim says every configuration sleeps the
48 s reporting interval each cycle, but the `delay(48000)` sits inside
`if (connectWIFI)`: with networking disabled a full cycle (all four
sensors active) contains no 48 s delay at all. -/
theorem C8_sleep_counterexample :
    Event.delayMs 48000 ∉ (loop ⟨true, true, true, true, false, true, 0, false, true⟩
      ⟨40, 600, 20, 50, 7⟩ ⟨true, ""⟩ influxPoint).2 := by
  simp [loop, reportEvents, pmBlock, co2Block, shtBlock, tvocBlock, showTextRectangle]

/-- C8 (amended): only when networking is enabled does every cycle end
with the 48 s inter-cycle sleep; with networking disabled the cycle
repeats with no 48 s sleep anywhere (only the per-sensor 3 s delays). -/
theorem C8_sleep_amended (cfg : Config) (rd : Readings) (u : UploadOracle) (p : Point) :
    (cfg.connectWIFI = true →
      (loop cfg rd u p).2.getLast? = some (Event.delayMs 48000)) ∧
    (cfg.connectWIFI = false →
      Event.delayMs 48000 ∉ (loop cfg rd u p).2) := by
  have hA := pm_no_misc cfg rd
  have hB := co2_no_misc cfg rd
  have hC := sht_no_misc cfg rd
  have hD := tvoc_no_misc cfg rd
  have hloop : ∀ v : UploadOracle, (loop cfg rd v p).2
      = (if cfg.displayData then [] else [Event.displayOff]) ++ (pmBlock cfg rd).2
        ++ (co2Block cfg rd).2 ++ (shtBlock cfg rd).2 ++ (tvocBlock cfg rd).2
        ++ reportEvents cfg v ((p.clearFields).applyAdds (cycleFields cfg rd)) :=
    fun v => rfl
  obtain ⟨uok, uerr⟩ := u
  constructor
  · intro hw
    rw [hloop]
    cases uok <;> simp [List.getLast?_append, reportEvents, hw]
  · intro hw
    rw [hloop]
    simp [reportEvents, hw, hA.2.2.2, hB.2.2.2, hC.2.2.2, hD.2.2.2]

theorem C8_sleep_amended_witness :
    (loop ⟨true, true, true, true, false, true, 0, true, true⟩ ⟨40, 600, 20, 50, 7⟩
      ⟨true, ""⟩ influxPoint).2.getLast? = some (Event.delayMs 48000) :=
  (C8_sleep_amended ⟨true, true, true, true, false, true, 0, true, true⟩
    ⟨40, 600, 20, 50, 7⟩ ⟨true, ""⟩ influxPoint).1 rfl

theorem powered_stays_off (d : DispState) (l : List Event) (h : d.powered = false) :
    (runEvents d l).powered = false := by
  induction l generalizing d with
  | nil => exact h
  | cons e rest ih =>
    have he : (applyEvent d e).powered = false := by
      cases e <;> simp [applyEvent, h]
    exact ih _ he

theorem pmBlock_fst (cfg : Config) (rd : Readings) :
    (pmBlock cfg rd).1 = if cfg.hasPM then
      [("pm2", FieldValue.ival rd.pm2), ("aqi", FieldValue.ival (PM_TO_AQI_US rd.pm2))]
    else [] := by
  unfold pmBlock
  split <;> rfl

theorem co2Block_fst (cfg : Config) (rd : Readings) :
    (co2Block cfg rd).1 = if cfg.hasCO2 then
      (if rd.co2 > 0 then [("co2", FieldValue.ival rd.co2)] else [])
    else [] := by
  unfold co2Block
  split <;> rfl

theorem shtBlock_fst (cfg : Config) (rd : Readings) :
    (shtBlock cfg rd).1 = if cfg.hasSHT then
      [("temp", FieldValue.fval (rd.t + cfg.tempOffsetC)), ("rhum", FieldValue.fval rd.rh)]
    else [] := by
  unfold shtBlock
  split <;> rfl

theorem tvocBlock_fst (cfg : Config) (rd : Readings) :
    (tvocBlock cfg rd).1 = if cfg.hasTVOC then [("tvoc", FieldValue.ival rd.tvoc)] else [] := by
  unfold tvocBlock
  split <;> rfl

theorem cycleFields_displayOnly (cfg : Config) (rd : Readings) (a b c : Bool) :
    cycleFields { cfg with inUSaqi := a, inF := b, displayData := c } rd
      = cycleFields cfg rd := by
  simp only [cycleFields, pmBlock_fst, co2Block_fst, shtBlock_fst, tvocBlock_fst]

/-- C9: with the display flag off, the cycle starts by powering the
display off, and after any nonempty prefix of the cycle's events nothing
is visible on the panel (renders still go to display RAM, but the panel
is off and nothing in the loop powers it back on); the accumulated
record and the submitted writes are identical to the flag-on run. -/
theorem C9_display_off (cfg : Config) (rd : Readings) (u : UploadOracle) (p : Point)
    (hd : cfg.displayData = false) :
    (∃ rest, (loop cfg rd u p).2 = Event.displayOff :: rest) ∧
    (∀ (d : DispState) (l1 l2 : List Event), (loop cfg rd u p).2 = l1 ++ l2 → l1 ≠ [] →
      visible (runEvents d l1) = none) ∧
    (loop cfg rd u p).1 = (loop { cfg with displayData := true } rd u p).1 ∧
    ((loop cfg rd u p).2.filter isWriteEv
      = ((loop { cfg with displayData := true } rd u p).2.filter isWriteEv)) := by
  have hloop : ∀ cfg' : Config, (loop cfg' rd u p).2
      = (if cfg'.displayData then [] else [Event.displayOff]) ++ (pmBlock cfg' rd).2
        ++ (co2Block cfg' rd).2 ++ (shtBlock cfg' rd).2 ++ (tvocBlock cfg' rd).2
        ++ reportEvents cfg' u ((p.clearFields).applyAdds (cycleFields cfg' rd)) :=
    fun cfg' => rfl
  have hrest : ∃ rest, (loop cfg rd u p).2 = Event.displayOff :: rest := by
    rw [hloop]
    simp [hd]
  refine ⟨hrest, ?_, ?_, ?_⟩
  · intro d l1 l2 heq hne
    obtain ⟨rest, h1⟩ := hrest
    rw [h1] at heq
    cases l1 with
    | nil => exact absurd rfl hne
    | cons a l1' =>
      simp only [List.cons_append, List.cons.injEq] at heq
      have hv : (runEvents d (a :: l1')).powered = false := by
        show (runEvents (applyEvent d a) l1').powered = false
        apply powered_stays_off
        rw [← heq.1]
        simp [applyEvent]
      simp [visible, hv]
  · rw [loop_point, loop_point]
    rw [show cycleFields { cfg with displayData := true } rd = cycleFields cfg rd from rfl]
  · rw [hloop, hloop]
    have h3 : (pmBlock { cfg with displayData := true } rd).2 = (pmBlock cfg rd).2 := rfl
    have h4 : (co2Block { cfg with displayData := true } rd).2 = (co2Block cfg rd).2 := rfl
    have h5 : (shtBlock { cfg with displayData := true } rd).2 = (shtBlock cfg rd).2 := rfl
    have h6 : (tvocBlock { cfg with displayData := true } rd).2 = (tvocBlock cfg rd).2 := rfl
    have h7 : reportEvents { cfg with displayData := true } u
        ((p.clearFields).applyAdds (cycleFields { cfg with displayData := true } rd))
        = reportEvents cfg u ((p.clearFields).applyAdds (cycleFields cfg rd)) := rfl
    rw [h3, h4, h5, h6, h7]
    simp [List.filter_append, hd, isWriteEv]

theorem C9_display_off_witness :
    (loop ⟨true, true, true, true, false, true, 0, true, false⟩ ⟨40, 600, 20, 50, 7⟩
        ⟨true, ""⟩ influxPoint).1
      = (loop ⟨true, true, true, true, false, true, 0, true, true⟩ ⟨40, 600, 20, 50, 7⟩
        ⟨true, ""⟩ influxPoint).1 :=
  (C9_display_off ⟨true, true, true, true, false, true, 0, true, false⟩
    ⟨40, 600, 20, 50, 7⟩ ⟨true, ""⟩ influxPoint rfl).2.2.1

theorem filter_write_nil (l : List Event) (h : l.countP isWriteEv = 0) :
    l.filter isWriteEv = [] := by
  rw [List.filter_eq_nil_iff]
  intro a ha
  simp [List.countP_eq_zero.mp h a ha]

/-- C10: the record a cycle accumulates (and hence every write) is
independent of the display-only flags `inUSaqi`, `inF` and
`displayData`; the `temp` field is always the offset-adjusted Celsius
value even when Fahrenheit display is on, and `pm2` and `aqi` are both
always added when ParticulateMatter is active, whatever `inUSaqi`. -/
theorem C10_record_flag_independent (cfg : Config) (rd : Readings) (u : UploadOracle)
    (p : Point) (a b c : Bool) :
    (loop { cfg with inUSaqi := a, inF := b, displayData := c } rd u p).1
      = (loop cfg rd u p).1 ∧
    ((loop { cfg with inUSaqi := a, inF := b, displayData := c } rd u p).2.filter isWriteEv
      = (loop cfg rd u p).2.filter isWriteEv) ∧
    (cfg.hasSHT = true →
      ("temp", FieldValue.fval (rd.t + cfg.tempOffsetC)) ∈ (loop cfg rd u p).1.fields ∧
      ("rhum", FieldValue.fval rd.rh) ∈ (loop cfg rd u p).1.fields) ∧
    (cfg.hasPM = true →
      ("pm2", FieldValue.ival rd.pm2) ∈ (loop cfg rd u p).1.fields ∧
      ("aqi", FieldValue.ival (PM_TO_AQI_US rd.pm2)) ∈ (loop cfg rd u p).1.fields) := by
  have hloop : ∀ cfg' : Config, (loop cfg' rd u p).2
      = (if cfg'.displayData then [] else [Event.displayOff]) ++ (pmBlock cfg' rd).2
        ++ (co2Block cfg' rd).2 ++ (shtBlock cfg' rd).2 ++ (tvocBlock cfg' rd).2
        ++ reportEvents cfg' u ((p.clearFields).applyAdds (cycleFields cfg' rd)) :=
    fun cfg' => rfl
  refine ⟨?_, ?_, ?_, ?_⟩
  · rw [loop_point, loop_point, cycleFields_displayOnly]
  · rw [hloop, hloop]
    simp only [List.filter_append]
    rw [filter_write_nil _ (pm_no_misc { cfg with inUSaqi := a, inF := b, displayData := c } rd).1,
      filter_write_nil _ (pm_no_misc cfg rd).1,
      filter_write_nil _ (co2_no_misc { cfg with inUSaqi := a, inF := b, displayData := c } rd).1,
      filter_write_nil _ (co2_no_misc cfg rd).1,
      filter_write_nil _ (sht_no_misc { cfg with inUSaqi := a, inF := b, displayData := c } rd).1,
      filter_write_nil _ (sht_no_misc cfg rd).1,
      filter_write_nil _ (tvoc_no_misc { cfg with inUSaqi := a, inF := b, displayData := c } rd).1,
      filter_write_nil _ (tvoc_no_misc cfg rd).1]
    have hR : reportEvents { cfg with inUSaqi := a, inF := b, displayData := c } u
        ((p.clearFields).applyAdds
          (cycleFields { cfg with inUSaqi := a, inF := b, displayData := c } rd))
        = reportEvents cfg u ((p.clearFields).applyAdds (cycleFields cfg rd)) := by
      rw [cycleFields_displayOnly]
      rfl
    rw [hR]
    have hteD : ∀ bb : Bool, List.filter isWriteEv (if bb then [] else [Event.displayOff]) = [] := by
      intro bb
      cases bb <;> simp [isWriteEv]
    rw [hteD, hteD]
  · intro hsht
    rw [loop_point]
    simp [cycleFields, pmBlock_fst, co2Block_fst, shtBlock_fst, tvocBlock_fst, hsht]
  · intro hpm
    rw [loop_point]
    simp [cycleFields, pmBlock_fst, co2Block_fst, shtBlock_fst, tvocBlock_fst, hpm]

theorem C10_record_flag_independent_witness :
    ("temp", FieldValue.fval ((20 : ℚ) + 2)) ∈ (loop ⟨true, true, true, true, false, true, 2, true, true⟩
        ⟨40, 600, 20, 50, 7⟩ ⟨true, ""⟩ influxPoint).1.fields ∧
    ("rhum", FieldValue.fval (50 : ℚ)) ∈ (loop ⟨true, true, true, true, false, true, 2, true, true⟩
        ⟨40, 600, 20, 50, 7⟩ ⟨true, ""⟩ influxPoint).1.fields :=
  (C10_record_flag_independent ⟨true, true, true, true, false, true, 2, true, true⟩
    ⟨40, 600, 20, 50, 7⟩ ⟨true, ""⟩ influxPoint true false true).2.2.1 rfl
